import Mathlib

/-!
# Verification of the appusers-flask login / lockout machine and list engine

Shallow embedding of the `appusers` package (database.py, login.py,
users.py, groups.py, models.py, utils.py).  Records are Lean structures,
the database session is passed explicitly, timestamps are natural-number
ticks, and every handler is a pure function from the request data and the
store to a response together with the new store.
-/

namespace Appusers

/-- A User row (database.py, class User). `last_failed_login` is a nullable
timestamp column, modelled as `Option Nat`. -/
structure UserRec where
  userid : Nat
  username : String
  firstname : String
  lastname : String
  email : String
  phone : String
  password : String
  locked : Bool
  failed_logins : Nat
  last_failed_login : Option Nat
  admin : Bool
deriving Repr, DecidableEq

/-- A Group row (database.py, class Group). -/
structure GroupRec where
  groupid : Nat
  groupname : String
  description : String
deriving Repr, DecidableEq

/-- The application store: user rows, group rows and the `members`
association table of (groupid, userid) edges (database.py). -/
structure St where
  users : List UserRec
  groups : List GroupRec
  members : List (Nat × Nat)
deriving Repr, DecidableEq

/-- Application configuration values read by login.py. -/
structure Config where
  MAX_FAILED_LOGIN_ATTEMPTS : Nat
  LOCK_TIMEOUT : Nat
deriving Repr, DecidableEq

/-- An HTTP response: status code and body text. -/
structure Resp where
  status : Nat
  body : String
deriving Repr, DecidableEq

/-- A value in a validated filter mapping (the dict handed to
`get_list`): query-string parameters load to strings, integers or
booleans. -/
inductive FVal where
  | strF (s : String)
  | natF (n : Nat)
  | boolF (b : Bool)
deriving Repr, DecidableEq

/-- A filter mapping: association list from key names to values,
mirroring the Python dict passed to `get_list`. -/
def Filters := List (String × FVal)

/-- `k in filters` / `filters[k]` of the Python dict. -/
def fget (fs : Filters) (k : String) : Option FVal :=
  (List.find? (fun p => p.1 == k) fs).map Prod.snd

/-- werkzeug's `safe_str_cmp`: constant-time string equality; the result
is plain equality of the two strings. -/
def safe_str_cmp (a b : String) : Bool := a == b

/-- Helper for `splitComma`: accumulate the current piece (reversed). -/
def splitCommaAux : List Char → List Char → List String
  | [], acc => [String.mk acc.reverse]
  | c :: cs, acc =>
    if c = ',' then String.mk acc.reverse :: splitCommaAux cs []
    else splitCommaAux cs (c :: acc)

/-- Python's `s.split(',')`: split a string on every comma, keeping
empty pieces (`"" → [""]`, `"a,,b" → ["a","","b"]`). -/
def splitComma (s : String) : List String := splitCommaAux s.data []

/-- `User.get_lock` (database.py line 168). -/
def get_lock (u : UserRec) : Bool := u.locked

/-- `User.set_lock` (database.py line 172): sets `locked = True`, commits. -/
def set_lock (u : UserRec) : UserRec := { u with locked := true }

/-- `User.unlock` (database.py lines 177-180): sets `locked = False` and
commits.  It touches no other column. -/
def unlock (u : UserRec) : UserRec := { u with locked := false }

/-- `User.set_password` (database.py line 163). -/
def user_set_password (u : UserRec) (p : String) : UserRec :=
  { u with password := p }

/-- Commit a mutated user row back into the session's user table:
the row with the same primary key is replaced. -/
def writeBack (db : List UserRec) (u : UserRec) : List UserRec :=
  db.map (fun v => if v.userid == u.userid then u else v)

/-- A sort key value: SQL columns compared here are integer or string
typed. -/
inductive SortVal where
  | natV (n : Nat)
  | strV (s : String)
deriving Repr, DecidableEq

/-- Compare two sort key values (same column, hence same constructor, in
any run reachable from validated input). -/
def SortVal.cmp : SortVal → SortVal → Ordering
  | .natV a, .natV b => compare a b
  | .strV a, .strV b => compare a b
  | .natV _, .strV _ => .lt
  | .strV _, .natV _ => .gt

/-- Parse a `sortBy` value (database.py lines 219-228 / 82-91): split on
commas; a leading '-' selects descending order on that column. -/
def parseSortBy (s : String) : List (String × Bool) :=
  (splitComma s).map (fun col =>
    match col.data with
    | '-' :: rest => (String.mk rest, true)
    | _ => (col, false))

/-- Multi-key comparator: ORDER BY key1, key2, ... with per-key
direction, exactly the SQL semantics of `query.order_by(*sort_by)`. -/
def keysCmp {α : Type} (colVal : α → String → SortVal) :
    List (String × Bool) → α → α → Ordering
  | [], _, _ => .eq
  | (f, desc) :: rest, a, b =>
    let c := SortVal.cmp (colVal a f) (colVal b f)
    let c := if desc then c.swap else c
    match c with
    | .eq => keysCmp colVal rest a b
    | o => o

/-- Stable insertion of `x` into a sorted list (ties keep `x`, the
earlier element, first). -/
def sIns {α : Type} (le : α → α → Bool) (x : α) : List α → List α
  | [] => [x]
  | y :: ys => if le x y then x :: y :: ys else y :: sIns le x ys

/-- Stable insertion sort. -/
def sSort {α : Type} (le : α → α → Bool) : List α → List α
  | [] => []
  | x :: xs => sIns le x (sSort le xs)

/-- Apply an ORDER BY clause given by a `sortBy` string to a row list. -/
def sortRows {α : Type} (colVal : α → String → SortVal) (s : String)
    (rows : List α) : List α :=
  sSort (fun a b => keysCmp colVal (parseSortBy s) a b ≠ Ordering.gt) rows

/-- Column lookup for User sort keys (the validated `sortBy` fields are
userid, username, firstname, lastname, email, phone). -/
def ucol (u : UserRec) : String → SortVal
  | "userid" => .natV u.userid
  | "username" => .strV u.username
  | "firstname" => .strV u.firstname
  | "lastname" => .strV u.lastname
  | "email" => .strV u.email
  | "phone" => .strV u.phone
  | _ => .strV ""

/-- Column lookup for Group sort keys (validated fields: groupid,
groupname, description). -/
def gcol (g : GroupRec) : String → SortVal
  | "groupid" => .natV g.groupid
  | "groupname" => .strV g.groupname
  | "description" => .strV g.description
  | _ => .strV ""

/-- `User.get_list(filters)` (database.py lines 201-234): successive
query refinements keyed on the presence of each dict key, then ORDER BY,
then OFFSET, then LIMIT. -/
def User_get_list (db : List UserRec) (filters : Filters) : List UserRec :=
  let q := db
  let q := match fget filters "username" with
    | some (.strF s) => q.filter (fun u => (splitComma s).contains u.username)
    | _ => q
  let q := match fget filters "firstname" with
    | some (.strF s) => q.filter (fun u => (splitComma s).contains u.firstname)
    | _ => q
  let q := match fget filters "lastname" with
    | some (.strF s) => q.filter (fun u => (splitComma s).contains u.lastname)
    | _ => q
  let q := match fget filters "email" with
    | some (.strF s) => q.filter (fun u => u.email == s)
    | _ => q
  let q := match fget filters "phone" with
    | some (.strF s) => q.filter (fun u => u.phone == s)
    | _ => q
  let q := match fget filters "sortBy" with
    | some (.strF s) => sortRows ucol s q
    | _ => q
  let q := match fget filters "offset" with
    | some (.natF n) => q.drop n
    | _ => q
  let q := match fget filters "limit" with
    | some (.natF n) => q.take n
    | _ => q
  q

/-- `Group.get_list(filters)` (database.py lines 72-97): groupname set
filter, member filter against the association table, then ORDER BY,
OFFSET, LIMIT. -/
def Group_get_list (groups : List GroupRec) (members : List (Nat × Nat))
    (filters : Filters) : List GroupRec :=
  let q := groups
  let q := match fget filters "groupname" with
    | some (.strF s) => q.filter (fun g => (splitComma s).contains g.groupname)
    | _ => q
  let q := match fget filters "member" with
    | some (.natF m) => q.filter (fun g => members.contains (g.groupid, m))
    | _ => q
  let q := match fget filters "sortBy" with
    | some (.strF s) => sortRows gcol s q
    | _ => q
  let q := match fget filters "offset" with
    | some (.natF n) => q.drop n
    | _ => q
  let q := match fget filters "limit" with
    | some (.natF n) => q.take n
    | _ => q
  q

/-- `User.retrieve(userid)` (database.py line 196): primary-key lookup. -/
def User_retrieve (db : List UserRec) (uid : Nat) : Option UserRec :=
  db.find? (fun u => u.userid == uid)

/-- `Group.retrieve(groupid)` (database.py line 67). -/
def Group_retrieve (groups : List GroupRec) (gid : Nat) : Option GroupRec :=
  groups.find? (fun g => g.groupid == gid)

/-- Result of the login operation: an error response, or a 200 carrying
the JWT (identity = userid) plus the user link. -/
inductive LoginResp where
  | err (status : Nat) (body : String)
  | ok (token_identity : Nat) (userHref : Nat)
deriving Repr, DecidableEq

/-- `login(data)` (login.py lines 34-96), for one attempt at time `now`:
resolve by username (body 'Unathorized' on no user, line 52); lazily lift
the lock when `now > last_failed_login + LOCK_TIMEOUT` (lines 57-58);
fail 'Unathorized' if still locked (line 67); on password match `unlock`
and issue the token (lines 69-82); on mismatch increment
`failed_logins`, set `last_failed_login := now`, lock when
`failed_logins > MAX_FAILED_LOGIN_ATTEMPTS`, persist, and fail
'Unauthorized' (lines 83-96). -/
def login (cfg : Config) (db : List UserRec) (username password : String)
    (now : Nat) : LoginResp × List UserRec :=
  match User_get_list db [("username", FVal.strF username)] with
  | [] => (.err 401 "Unathorized", db)
  | user :: _ =>
    let user := match user.last_failed_login with
      | some t => if now > t + cfg.LOCK_TIMEOUT then unlock user else user
      | none => user
    if get_lock user then
      (.err 401 "Unathorized", writeBack db user)
    else if safe_str_cmp user.password password then
      let user := unlock user
      (.ok user.userid user.userid, writeBack db user)
    else
      let user := { user with
        failed_logins := user.failed_logins + 1,
        last_failed_login := some now }
      let user := if user.failed_logins > cfg.MAX_FAILED_LOGIN_ATTEMPTS then
          set_lock user
        else user
      (.err 401 "Unauthorized", writeBack db user)

/-- Iterate `login` attempts with fixed credentials; `times i` is the
clock at the (i+1)-st attempt; returns the user table after `n`
attempts. -/
def loginRunN (cfg : Config) (db : List UserRec) (username password : String)
    (times : Nat → Nat) : Nat → List UserRec
  | 0 => db
  | n + 1 => (login cfg (loginRunN cfg db username password times n)
      username password (times n)).2

/-- Validated partial request body for PATCH /users/{id}
(user_schema with partial=True): each field present only when supplied. -/
structure UpdateData where
  username : Option String
  firstname : Option String
  lastname : Option String
  email : Option String
  phone : Option String
deriving Repr, DecidableEq

/-- Validated full request body for PUT /users/{id} (user_schema, all
fields required). -/
structure ReplaceData where
  username : String
  firstname : String
  lastname : String
  email : String
  phone : String
deriving Repr, DecidableEq

/-- Validated body for PUT/PATCH /groups/{id} (group_schema): both
fields are required on PUT. -/
structure GroupData where
  groupname : String
  description : String
deriving Repr, DecidableEq

/-- `User.update(**data)` (database.py lines 126-144): each keyword is
applied only when truthy (a present, non-empty string). -/
def User_update (u : UserRec) (d : UpdateData) : UserRec :=
  let u := match d.username with
    | some s => if s ≠ "" then { u with username := s } else u
    | none => u
  let u := match d.firstname with
    | some s => if s ≠ "" then { u with firstname := s } else u
    | none => u
  let u := match d.lastname with
    | some s => if s ≠ "" then { u with lastname := s } else u
    | none => u
  let u := match d.email with
    | some s => if s ≠ "" then { u with email := s } else u
    | none => u
  let u := match d.phone with
    | some s => if s ≠ "" then { u with phone := s } else u
    | none => u
  u

/-- The PUT body handed to `User.update(**data)`: every field present. -/
def ReplaceData.toUpdate (d : ReplaceData) : UpdateData :=
  ⟨some d.username, some d.firstname, some d.lastname, some d.email,
   some d.phone⟩

/-- `Group.update(**data)` (database.py lines 39-45). -/
def Group_update (g : GroupRec) (d : GroupData) : GroupRec :=
  let g := if d.groupname ≠ "" then { g with groupname := d.groupname } else g
  let g := if d.description ≠ "" then { g with description := d.description } else g
  g

/-- Commit a mutated group row back into the group table. -/
def writeBackG (groups : List GroupRec) (g : GroupRec) : List GroupRec :=
  groups.map (fun v => if v.groupid == g.groupid then g else v)

/-- The username-uniqueness pre-check used by the user handlers:
`User.get_list({'username': s})` is truthy. -/
def dupUsername (db : List UserRec) (s : String) : Bool :=
  User_get_list db [("username", FVal.strF s)] ≠ []

/-- Outcome of a store-level `remove()` call: either the commit
succeeds or the database layer raises. -/
inductive RemoveOutcome where
  | ok
  | fail (msg : String)
deriving Repr, DecidableEq

/-- `update_user` (users.py lines 152-184), PATCH /users/{userid},
behind `jwt_required` with requester `current`: 404 on unknown id;
400 when the body carries a username and the uniqueness pre-check finds
any user with it; 401 unless requester is the owner or an admin; else
apply the partial update. -/
def update_user (db : List UserRec) (current : UserRec) (userid : Nat)
    (data : UpdateData) : Resp × List UserRec :=
  match User_retrieve db userid with
  | none => (⟨404, "Not found"⟩, db)
  | some user =>
    if (match data.username with
        | some s => dupUsername db s
        | none => false) then
      (⟨400, "Bad request"⟩, db)
    else if current.userid != userid && !current.admin then
      (⟨401, "Unauthorized"⟩, db)
    else
      (⟨200, "OK"⟩, writeBack db (User_update user data))

/-- `replace_user` (users.py lines 115-147), PUT /users/{userid}, behind
`jwt_required`: 404 on unknown id; 400 when the uniqueness pre-check
`User.get_list({'username': data['username']})` is non-empty (the body's
username is always checked); 401 unless owner or admin; else update. -/
def replace_user (db : List UserRec) (current : UserRec) (userid : Nat)
    (data : ReplaceData) : Resp × List UserRec :=
  match User_retrieve db userid with
  | none => (⟨404, "Not found"⟩, db)
  | some user =>
    if dupUsername db data.username then
      (⟨400, "Bad request"⟩, db)
    else if current.userid != userid && !current.admin then
      (⟨401, "Unauthorized"⟩, db)
    else
      (⟨200, "OK"⟩, writeBack db (User_update user data.toUpdate))

/-- `set_password` (users.py lines 216-242), POST
/users/{userid}/set-password, behind `jwt_required`: 404 on unknown id;
401 unless owner or admin; else store the new password. -/
def set_password (db : List UserRec) (current : UserRec) (userid : Nat)
    (pw : String) : Resp × List UserRec :=
  match User_retrieve db userid with
  | none => (⟨404, "Not Found"⟩, db)
  | some user =>
    if current.userid != userid && !current.admin then
      (⟨401, "Unauthorized"⟩, db)
    else
      (⟨200, "OK"⟩, writeBack db (user_set_password user pw))

/-- `delete_user` (users.py lines 189-211), DELETE /users/{userid},
behind `jwt_required` and `admin_required` (utils.py lines 63-74, body
'Unathorized' on a non-admin requester): 404 on unknown id; 401 when the
target is the requester themself; otherwise `user.remove()` runs with no
try/except around it, so a store failure propagates out of the handler
(modelled as `Except.error`). -/
def delete_user (db : List UserRec) (current : UserRec) (userid : Nat)
    (outcome : RemoveOutcome) : Except String (Resp × List UserRec) :=
  if !current.admin then
    .ok (⟨401, "Unathorized"⟩, db)
  else
    match User_retrieve db userid with
    | some _ =>
      if userid == current.userid then
        .ok (⟨401, "Unauthorized"⟩, db)
      else
        match outcome with
        | .ok => .ok (⟨200, "OK"⟩, db.filter (fun v => v.userid ≠ userid))
        | .fail msg => .error msg
    | none => .ok (⟨404, "Not found"⟩, db)

/-- `replace_group` (groups.py lines 113-138), PUT /groups/{groupid},
behind `jwt_required` and `admin_required`: 404 on unknown id; 400 when
`Group.get_list({'groupname': data['groupname']})` is non-empty; else
update. -/
def replace_group (st : St) (current : UserRec) (groupid : Nat)
    (data : GroupData) : Resp × St :=
  if !current.admin then
    (⟨401, "Unathorized"⟩, st)
  else
    match Group_retrieve st.groups groupid with
    | none => (⟨404, "Not found"⟩, st)
    | some g =>
      if Group_get_list st.groups st.members
          [("groupname", FVal.strF data.groupname)] ≠ [] then
        (⟨400, "Bad request"⟩, st)
      else
        (⟨200, "OK"⟩, { st with groups := writeBackG st.groups (Group_update g data) })

/-- `delete_group` (groups.py lines 174-197), DELETE /groups/{groupid},
behind `jwt_required` and `admin_required`: when `group.remove()`
raises, the except branch logs and builds `make_response('Internal
error', 500)` but never returns it, so the handler body produces no
response at all (modelled as `none`). -/
def delete_group (st : St) (current : UserRec) (groupid : Nat)
    (outcome : RemoveOutcome) : Option Resp × St :=
  if !current.admin then
    (some ⟨401, "Unathorized"⟩, st)
  else
    match Group_retrieve st.groups groupid with
    | some _ =>
      match outcome with
      | .ok => (some ⟨200, "OK"⟩,
          { st with groups := st.groups.filter (fun g => g.groupid ≠ groupid),
                    members := st.members.filter (fun e => e.1 ≠ groupid) })
      | .fail _ => (none, st)
    | none => (some ⟨404, "Not found"⟩, st)

/-- `add_user_to_group` (groups.py lines 239-267), PUT
/groups/{groupid}/members/{userid}, behind `jwt_required` and
`admin_required`: 404 when group or user is missing; 200 'User already
in the Group' when the membership edge exists; else `Group.add_member`
(database.py lines 52-56) appends the edge and the handler returns
201 'User added to the Group'. -/
def add_user_to_group (st : St) (current : UserRec) (groupid userid : Nat) :
    Resp × St :=
  if !current.admin then
    (⟨401, "Unathorized"⟩, st)
  else
    match Group_retrieve st.groups groupid with
    | none => (⟨404, "Group or User not found"⟩, st)
    | some _ =>
      match User_retrieve st.users userid with
      | none => (⟨404, "Group or User not found"⟩, st)
      | some _ =>
        if (groupid, userid) ∈ st.members then
          (⟨200, "User already in the Group"⟩, st)
        else
          (⟨201, "User added to the Group"⟩,
           { st with members := st.members ++ [(groupid, userid)] })

/-- Keys present in the validated Users List query-string mapping
produced by `UsersQueryStringSchema` (models.py lines 172-187): the
declared fields, with `return_fields` loaded from query parameter
`fields`.  Note the schema declares `first` and `last` (not `firstname`
and `lastname`) and declares no `member` or `groupid` field. -/
def usersQueryStringLoadedKeys : List String :=
  ["username", "first", "last", "email", "phone", "offset", "limit",
   "return_fields", "sortBy", "locked", "admin"]

/-! ## Sample data for concrete evaluations -/

/-- Default-like configuration: `MAX_FAILED_LOGIN_ATTEMPTS = 5`,
`LOCK_TIMEOUT = 300` seconds. -/
def cfg5 : Config := ⟨5, 300⟩

/-- An unlocked admin user. -/
def uAdmin : UserRec :=
  ⟨1, "admin", "Admin", "User", "admin@example.com", "123-444-5555",
   "pass", false, 0, none, true⟩

/-- A locked account with a failed-login history. -/
def uLockedSample : UserRec :=
  ⟨2, "locked", "Locked", "Account", "locked@example.com", "123-444-5556",
   "pass", true, 7, some 100, false⟩

/-- An unlocked account that has accumulated 3 failed logins. -/
def uFailed3 : UserRec :=
  ⟨3, "fail3", "Fail", "Three", "fail3@example.com", "123-444-5557",
   "pass", false, 3, some 10, false⟩

/-- Locked admin user with lastname 'Sample' and firstname 'Fa'. -/
def uSampleA : UserRec :=
  ⟨1, "ua", "Fa", "Sample", "a@example.com", "111-111", "p",
   true, 0, none, true⟩

/-- Unlocked non-admin user with lastname 'Nerd' and firstname 'Fb'. -/
def uSampleB : UserRec :=
  ⟨2, "ub", "Fb", "Nerd", "b@example.com", "222-222", "p",
   false, 0, none, false⟩

/-- A non-admin, non-self target user for delete scenarios. -/
def uTarget : UserRec :=
  ⟨2, "target", "Tar", "Get", "t@example.com", "333-333", "p",
   false, 0, none, false⟩

/-- A store with one group and two users, the target being a member. -/
def stSample : St :=
  ⟨[uAdmin, uTarget], [⟨1, "staff", "Staff group"⟩], [(1, 2)]⟩

/-- Pagination sample: user with lastname 'Alpha'. -/
def uP1 : UserRec :=
  ⟨11, "ua", "F1", "Alpha", "p1@x.com", "111-1111", "p", false, 0, none, false⟩

/-- Pagination sample: user with lastname 'Mira'. -/
def uP2 : UserRec :=
  ⟨12, "ub", "F2", "Mira", "p2@x.com", "222-2222", "p", false, 0, none, false⟩

/-- Pagination sample: user with lastname 'Zeta'. -/
def uP3 : UserRec :=
  ⟨13, "uc", "F3", "Zeta", "p3@x.com", "333-3333", "p", false, 0, none, false⟩

/-- Pagination sample: user with lastname 'Omega', excluded by the
username filter in the pipeline conjunct. -/
def uP4 : UserRec :=
  ⟨14, "ud", "F4", "Omega", "p4@x.com", "444-4444", "p", false, 0, none, false⟩

/-- Pagination sample group 'alpha'. -/
def gP1 : GroupRec := ⟨21, "alpha", "g1"⟩

/-- Pagination sample group 'mira'. -/
def gP2 : GroupRec := ⟨22, "mira", "g2"⟩

/-- Pagination sample group 'zeta'. -/
def gP3 : GroupRec := ⟨23, "zeta", "g3"⟩

/-- Access-control sample: a plain (non-admin) account. -/
def wAlice : UserRec :=
  ⟨1, "alice", "Alice", "Doe", "alice@x.com", "100-0001", "pa",
   false, 0, none, false⟩

/-- Access-control sample: another plain account. -/
def wBob : UserRec :=
  ⟨2, "bob", "Bob", "Ray", "bob@x.com", "100-0002", "pb",
   false, 0, none, false⟩

/-- Access-control sample: an admin account. -/
def wCarol : UserRec :=
  ⟨3, "carol", "Carol", "Kim", "carol@x.com", "100-0003", "pc",
   false, 0, none, true⟩

/-- Access-control sample user table. -/
def wDb : List UserRec := [wAlice, wBob, wCarol]

/-- PATCH body Alice sends for her own record (no username change). -/
def wDataSelf : UpdateData := ⟨none, some "Alicia", none, none, none⟩

/-- PATCH body Alice sends for Bob's record. -/
def wDataOther : UpdateData := ⟨none, some "Hack", none, none, none⟩

/-- PUT body Alice sends for her own record, with a fresh username. -/
def wRep : ReplaceData :=
  ⟨"alicenew", "Alice", "Doe", "alice@x.com", "100-0001"⟩

end Appusers

namespace Appusers

/-! ## Theorems -/

/-- C2: the claim says every unlock path resets `failed_logins` to 0 and
clears `last_failed_login`.  The code's `User.unlock` (database.py lines
177-180) — the single routine behind the administrative clear-lock, the
lazy-timeout lift and the successful-login branch — only sets
`locked = False`: on a locked user with 7 failed logins it leaves the
counter at 7 and the timestamp set, and a successful login of `uFailed3`
(correct password) leaves `failed_logins = 3` and
`last_failed_login = some 10` in the store. -/
theorem unlock_does_not_reset_counters :
    (unlock uLockedSample).locked = false ∧
    (unlock uLockedSample).failed_logins = 7 ∧
    (unlock uLockedSample).last_failed_login = some 100 ∧
    (login cfg5 [uFailed3] "fail3" "pass" 1000).1 = .ok 3 3 ∧
    ((login cfg5 [uFailed3] "fail3" "pass" 1000).2.map
      (fun u => u.failed_logins)) = [3] ∧
    ((login cfg5 [uFailed3] "fail3" "pass" 1000).2.map
      (fun u => u.last_failed_login)) = [some 10] := by
  decide

/-- C5: the validated Users List query mapping (models.py,
`UsersQueryStringSchema`) loads keys `first`, `last`, `locked`, `admin`
(and no `member`/`groupid` key at all), while `User.get_list`
(database.py) consults keys `firstname`/`lastname` and has no branch for
`locked`, `admin` or membership: the supplied restrictions `last=Sample`,
`first=Fa`, `locked=true`, `admin=true` all leave the candidate set
untouched (both users returned although only `uSampleA` matches), so
those filters never take effect. -/
theorem users_list_filters_without_effect :
    "last" ∈ usersQueryStringLoadedKeys ∧
    "first" ∈ usersQueryStringLoadedKeys ∧
    "locked" ∈ usersQueryStringLoadedKeys ∧
    "admin" ∈ usersQueryStringLoadedKeys ∧
    "member" ∉ usersQueryStringLoadedKeys ∧
    "groupid" ∉ usersQueryStringLoadedKeys ∧
    User_get_list [uSampleA, uSampleB] [("last", FVal.strF "Sample")]
      = [uSampleA, uSampleB] ∧
    User_get_list [uSampleA, uSampleB] [("first", FVal.strF "Fa")]
      = [uSampleA, uSampleB] ∧
    User_get_list [uSampleA, uSampleB] [("locked", FVal.boolF true)]
      = [uSampleA, uSampleB] ∧
    User_get_list [uSampleA, uSampleB] [("admin", FVal.boolF true)]
      = [uSampleA, uSampleB] ∧
    User_get_list [uSampleA, uSampleB] [("lastname", FVal.strF "Sample")]
      = [uSampleA] := by
  decide

/-- C6: the claim says the no-such-user response and the wrong-password
response are identical.  Both carry status 401, but login.py line 52
writes body 'Unathorized' (misspelled) for an unknown username while
line 96 writes 'Unauthorized' for a wrong password, so the two responses
differ and a caller can tell whether the username exists. -/
theorem login_responses_distinguish_unknown_username :
    login cfg5 [uAdmin] "nosuch" "pass" 0
      = (.err 401 "Unathorized", [uAdmin]) ∧
    login cfg5 [uAdmin] "admin" "wrongpass" 0
      = (.err 401 "Unauthorized",
         [{ uAdmin with failed_logins := 1, last_failed_login := some 0 }]) ∧
    ("Unathorized" : String) ≠ "Unauthorized" := by
  decide

/-- C9: the claim says a store failure during delete is caught and
turned into a 500 response.  In groups.py lines 187-193 the except
branch constructs `make_response('Internal error', 500)` but never
returns it, so the handler produces no response at all (`none`); in
users.py lines 200-211 `user.remove()` is not wrapped in try/except, so
the failure propagates out of the handler (`Except.error`). -/
theorem delete_failure_yields_no_500 :
    delete_group stSample uAdmin 1 (.fail "db failure") = (none, stSample) ∧
    delete_user [uAdmin, uTarget] uAdmin 2 (.fail "db failure")
      = .error "db failure" := by
  exact ⟨rfl, rfl⟩

/-! ## Helper lemmas about the query engine -/

/-- A filter mapping with only a username key reduces to one filter. -/
theorem User_get_list_username (db : List UserRec) (s : String) :
    User_get_list db [("username", FVal.strF s)]
      = db.filter (fun x => (splitComma s).contains x.username) := rfl

/-- A filter mapping with only a groupname key reduces to one filter. -/
theorem Group_get_list_groupname (groups : List GroupRec)
    (members : List (Nat × Nat)) (s : String) :
    Group_get_list groups members [("groupname", FVal.strF s)]
      = groups.filter (fun g => (splitComma s).contains g.groupname) := rfl

/-- A sortBy/offset/limit mapping applies ORDER BY, then OFFSET, then
LIMIT, in that order, to the candidate set. -/
theorem User_get_list_sop (db : List UserRec) (s : String) (o l : Nat) :
    User_get_list db
      [("sortBy", FVal.strF s), ("offset", FVal.natF o), ("limit", FVal.natF l)]
      = ((sortRows ucol s db).drop o).take l := rfl

/-- Group counterpart of `User_get_list_sop`. -/
theorem Group_get_list_sop (groups : List GroupRec) (members : List (Nat × Nat))
    (s : String) (o l : Nat) :
    Group_get_list groups members
      [("sortBy", FVal.strF s), ("offset", FVal.natF o), ("limit", FVal.natF l)]
      = ((sortRows gcol s groups).drop o).take l := rfl

/-- The uniqueness pre-check run against a user's own (unchanged)
username reports a duplicate: the record being replaced matches. -/
theorem dupUsername_self (db : List UserRec) (u : UserRec) (hu : u ∈ db)
    (hsplit : splitComma u.username = [u.username]) :
    dupUsername db u.username = true := by
  have hpred : ((splitComma u.username).contains u.username) = true := by
    rw [hsplit]; simp
  have hm : u ∈ db.filter (fun x => (splitComma u.username).contains x.username) :=
    List.mem_filter.2 ⟨hu, hpred⟩
  have hne : db.filter (fun x => (splitComma u.username).contains x.username) ≠ [] :=
    List.ne_nil_of_mem hm
  simp only [dupUsername, User_get_list_username]
  exact decide_eq_true hne

/-- Login resolves a single-user table by its username. -/
theorem login_resolves_single (u : UserRec)
    (hsplit : splitComma u.username = [u.username]) :
    User_get_list [u] [("username", FVal.strF u.username)] = [u] := by
  rw [User_get_list_username]
  simp [hsplit]

/-- One wrong-password attempt against an unlocked user: 401
'Unauthorized', `failed_logins` incremented by exactly 1,
`last_failed_login` set to the attempt time, and the account locked iff
the new counter strictly exceeds `MAX_FAILED_LOGIN_ATTEMPTS`. -/
theorem login_wrong_pw_unlocked
    (cfg : Config) (u : UserRec) (pw : String) (t : Nat)
    (hsplit : splitComma u.username = [u.username])
    (hl : u.locked = false)
    (hpw : u.password ≠ pw) :
    login cfg [u] u.username pw t
      = (.err 401 "Unauthorized",
         [{ u with
              failed_logins := u.failed_logins + 1,
              last_failed_login := some t,
              locked := decide
                (u.failed_logins + 1 > cfg.MAX_FAILED_LOGIN_ATTEMPTS) }]) := by
  obtain ⟨uid, un, fn, ln, em, ph, pwd, lk, fl, lf, ad⟩ := u
  dsimp only at hsplit hl hpw ⊢
  subst hl
  unfold login
  rw [login_resolves_single ⟨uid, un, fn, ln, em, ph, pwd, false, fl, lf, ad⟩ hsplit]
  dsimp only
  cases lf with
  | none =>
    simp only [get_lock, safe_str_cmp, set_lock, writeBack]
    by_cases h : fl + 1 > cfg.MAX_FAILED_LOGIN_ATTEMPTS
    · simp [h, hpw]
    · simp [h, hpw]
  | some tp =>
    simp only [get_lock, unlock, safe_str_cmp, set_lock, writeBack, ite_self]
    by_cases h : fl + 1 > cfg.MAX_FAILED_LOGIN_ATTEMPTS
    · simp [h, hpw]
    · simp [h, hpw]

/-- Descending-lastname insertion sort of three users with pairwise
distinct lastnames (x largest, z smallest), given in the store order
[y, z, x]. -/
theorem sortRows_desc_lastname (x y z : UserRec)
    (hyx : compare y.lastname x.lastname = .lt)
    (hyz : compare y.lastname z.lastname = .gt)
    (hzx : compare z.lastname x.lastname = .lt) :
    sortRows ucol "-lastname" [y, z, x] = [x, y, z] := by
  have hp : parseSortBy "-lastname" = [("lastname", true)] := by decide
  simp [sortRows, hp, sSort, sIns, keysCmp, ucol, SortVal.cmp, hzx, hyx,
    hyz, Ordering.swap]

/-- Group counterpart of `sortRows_desc_lastname`. -/
theorem sortRows_desc_groupname (x y z : GroupRec)
    (hyx : compare y.groupname x.groupname = .lt)
    (hyz : compare y.groupname z.groupname = .gt)
    (hzx : compare z.groupname x.groupname = .lt) :
    sortRows gcol "-groupname" [y, z, x] = [x, y, z] := by
  have hp : parseSortBy "-groupname" = [("groupname", true)] := by decide
  simp [sortRows, hp, sSort, sIns, keysCmp, gcol, SortVal.cmp, hzx, hyx,
    hyz, Ordering.swap]

/-! ## Claim theorems -/

/-- C1: starting from `failed_logins = 0`, unlocked, a run of consecutive
wrong-password Login attempts (attempt spacing bounded by LOCK_TIMEOUT)
leaves, after each k ≤ MAX_FAILED_LOGIN_ATTEMPTS + 1 attempts, exactly
`failed_logins = k`, `last_failed_login = time of attempt k`, and
`locked` true precisely when `k > MAX_FAILED_LOGIN_ATTEMPTS` (strict
comparison): still UNLOCKED after exactly MAX attempts, LOCKED after
MAX + 1; and every attempt up to the locking one fails 401
'Unauthorized'. -/
theorem failed_login_lockout_threshold
    (cfg : Config) (u : UserRec) (pw : String) (times : Nat → Nat)
    (hsplit : splitComma u.username = [u.username])
    (h0 : u.failed_logins = 0) (hl : u.locked = false)
    (hpw : u.password ≠ pw)
    (hchain : ∀ i, times (i + 1) ≤ times i + cfg.LOCK_TIMEOUT) :
    (∀ k, k ≤ cfg.MAX_FAILED_LOGIN_ATTEMPTS + 1 →
      loginRunN cfg [u] u.username pw times k
        = [{ u with
              failed_logins := k,
              last_failed_login :=
                if k = 0 then u.last_failed_login else some (times (k - 1)),
              locked := decide (k > cfg.MAX_FAILED_LOGIN_ATTEMPTS) }]) ∧
    (∀ k, k ≤ cfg.MAX_FAILED_LOGIN_ATTEMPTS →
      (login cfg (loginRunN cfg [u] u.username pw times k) u.username pw
        (times k)).1 = .err 401 "Unauthorized") := by
  obtain ⟨uid, un, fn, ln, em, ph, pwd, lk, fl, lf, ad⟩ := u
  dsimp only at hsplit h0 hl hpw ⊢
  subst h0 hl
  have main : ∀ k, k ≤ cfg.MAX_FAILED_LOGIN_ATTEMPTS + 1 →
      loginRunN cfg [⟨uid, un, fn, ln, em, ph, pwd, false, 0, lf, ad⟩]
          un pw times k
        = [⟨uid, un, fn, ln, em, ph, pwd,
            decide (k > cfg.MAX_FAILED_LOGIN_ATTEMPTS), k,
            if k = 0 then lf else some (times (k - 1)), ad⟩] := by
    intro k
    induction k with
    | zero =>
      intro _
      simp [loginRunN]
    | succ n ih =>
      intro hn
      have hrec := ih (by omega)
      have hlk : decide (n > cfg.MAX_FAILED_LOGIN_ATTEMPTS) = false := by
        simp
        omega
      rw [hlk] at hrec
      have hstep := login_wrong_pw_unlocked cfg
        ⟨uid, un, fn, ln, em, ph, pwd, false, n,
          (if n = 0 then lf else some (times (n - 1))), ad⟩
        pw (times n) hsplit rfl hpw
      dsimp only at hstep
      simp only [loginRunN]
      rw [hrec, hstep]
      simp
  refine ⟨main, ?_⟩
  intro k hk
  have hrec := main k (by omega)
  have hlk : decide (k > cfg.MAX_FAILED_LOGIN_ATTEMPTS) = false := by
    simp
    omega
  rw [hlk] at hrec
  have hstep := login_wrong_pw_unlocked cfg
    ⟨uid, un, fn, ln, em, ph, pwd, false, k,
      (if k = 0 then lf else some (times (k - 1))), ad⟩
    pw (times k) hsplit rfl hpw
  dsimp only at hstep
  rw [hrec, hstep]

/-- Witness for C1 at `cfg5` (MAX = 5) with user `uSampleB` and five
resp. six wrong-password attempts all at time 0: after 5 attempts the
account is unlocked with counter 5; after 6 it is locked with
counter 6. -/
theorem failed_login_lockout_threshold_witness :
    (loginRunN cfg5 [uSampleB] uSampleB.username "wrong" (fun _ => 0) 5).map
        (fun v => (v.locked, v.failed_logins)) = [(false, 5)] ∧
    (loginRunN cfg5 [uSampleB] uSampleB.username "wrong" (fun _ => 0) 6).map
        (fun v => (v.locked, v.failed_logins)) = [(true, 6)] := by
  have h := failed_login_lockout_threshold cfg5 uSampleB "wrong" (fun _ => 0)
    (by decide) (by decide) (by decide) (by decide) (fun i => Nat.zero_le _)
  rw [h.1 5 (by decide), h.1 6 (by decide)]
  decide

/-- C3: a LOCKED user with `last_failed_login` set, attempting Login
with the correct password at a time strictly later than
`last_failed_login + LOCK_TIMEOUT`, succeeds and receives a token with
their userid as identity, with no administrative action: the lock is
lifted lazily inside that very attempt. -/
theorem lazy_unlock_correct_login
    (cfg : Config) (u : UserRec) (pw : String) (t lfl : Nat)
    (hsplit : splitComma u.username = [u.username])
    (hlock : u.locked = true)
    (hlfl : u.last_failed_login = some lfl)
    (ht : t > lfl + cfg.LOCK_TIMEOUT)
    (hpw : u.password = pw) :
    login cfg [u] u.username pw t
      = (.ok u.userid u.userid, [{ u with locked := false }]) := by
  obtain ⟨uid, un, fn, ln, em, ph, pwd, lk, fl, lf, ad⟩ := u
  dsimp only at hsplit hlock hlfl hpw ⊢
  subst hlock hlfl hpw
  unfold login
  rw [login_resolves_single ⟨uid, un, fn, ln, em, ph, pwd, true, fl, some lfl, ad⟩ hsplit]
  dsimp only
  rw [if_pos ht]
  simp [get_lock, unlock, safe_str_cmp, writeBack]

/-- Witness for C3: `uLockedSample` (locked, last failure at 100) logs
in with the correct password at time 1000 > 100 + 300 and gets a
token. -/
theorem lazy_unlock_correct_login_witness :
    login cfg5 [uLockedSample] uLockedSample.username "pass" 1000
      = (.ok uLockedSample.userid uLockedSample.userid,
         [{ uLockedSample with locked := false }]) :=
  lazy_unlock_correct_login cfg5 uLockedSample "pass" 1000 100
    (by decide) (by decide) (by decide) (by decide) rfl

/-- C4: for Users and Groups lists, sorting is applied to the filtered
candidate set before offset and before limit; with
`sortBy=-lastname&offset=1&limit=2` on a 3-record candidate set (x with
the largest lastname, then y, then z, stored as [y, z, x]) the result is
exactly the 2 records [y, z] in descending-lastname order skipping the
first; the group pipeline behaves identically on `-groupname`; and with
an additional username filter the excluded record never reaches the
sort/offset/limit stage. -/
theorem sort_before_offset_before_limit
    (x y z : UserRec) (gx gy gz : GroupRec) (ms : List (Nat × Nat))
    (hyx : compare y.lastname x.lastname = .lt)
    (hyz : compare y.lastname z.lastname = .gt)
    (hzx : compare z.lastname x.lastname = .lt)
    (hgyx : compare gy.groupname gx.groupname = .lt)
    (hgyz : compare gy.groupname gz.groupname = .gt)
    (hgzx : compare gz.groupname gx.groupname = .lt) :
    User_get_list [y, z, x]
      [("sortBy", FVal.strF "-lastname"), ("offset", FVal.natF 1),
       ("limit", FVal.natF 2)] = [y, z] ∧
    Group_get_list [gy, gz, gx] ms
      [("sortBy", FVal.strF "-groupname"), ("offset", FVal.natF 1),
       ("limit", FVal.natF 2)] = [gy, gz] ∧
    User_get_list [uP1, uP2, uP3, uP4]
      [("username", FVal.strF "ua,ub,uc"), ("sortBy", FVal.strF "-lastname"),
       ("offset", FVal.natF 1), ("limit", FVal.natF 2)] = [uP2, uP1] := by
  refine ⟨?_, ?_, by decide⟩
  · rw [User_get_list_sop, sortRows_desc_lastname x y z hyx hyz hzx]
    rfl
  · rw [Group_get_list_sop, sortRows_desc_groupname gx gy gz hgyx hgyz hgzx]
    rfl

/-- Witness for C4 with lastnames Zeta > Mira > Alpha and groupnames
zeta > mira > alpha. -/
theorem sort_before_offset_before_limit_witness :
    User_get_list [uP2, uP1, uP3]
      [("sortBy", FVal.strF "-lastname"), ("offset", FVal.natF 1),
       ("limit", FVal.natF 2)] = [uP2, uP1] ∧
    Group_get_list [gP2, gP1, gP3] []
      [("sortBy", FVal.strF "-groupname"), ("offset", FVal.natF 1),
       ("limit", FVal.natF 2)] = [gP2, gP1] ∧
    User_get_list [uP1, uP2, uP3, uP4]
      [("username", FVal.strF "ua,ub,uc"), ("sortBy", FVal.strF "-lastname"),
       ("offset", FVal.natF 1), ("limit", FVal.natF 2)] = [uP2, uP1] :=
  sort_before_offset_before_limit uP3 uP2 uP1 gP3 gP2 gP1 []
    (by decide) (by decide) (by decide) (by decide) (by decide) (by decide)

/-- C7: a non-admin user can PATCH their own record, PUT their own
record (with a non-colliding username) and set their own password, all
succeeding with 200; the same non-admin PATCHing another user's record
fails 401 with the store unchanged; and a DELETE of the requester's own
account fails 401 even for an admin, leaving the store unchanged. -/
theorem self_or_admin_rule
    (db : List UserRec) (current target adm : UserRec)
    (dataSelf dataOther : UpdateData) (rep : ReplaceData) (pw : String)
    (oc : RemoveOutcome)
    (hc : User_retrieve db current.userid = some current)
    (hna : current.admin = false)
    (hds : dataSelf.username = none)
    (hrep : User_get_list db [("username", FVal.strF rep.username)] = [])
    (ht : User_retrieve db target.userid = some target)
    (hne : target.userid ≠ current.userid)
    (hdo : dataOther.username = none)
    (ha : adm.admin = true)
    (hadm : User_retrieve db adm.userid = some adm) :
    (update_user db current current.userid dataSelf).1 = ⟨200, "OK"⟩ ∧
    (replace_user db current current.userid rep).1 = ⟨200, "OK"⟩ ∧
    (set_password db current current.userid pw).1 = ⟨200, "OK"⟩ ∧
    update_user db current target.userid dataOther
      = (⟨401, "Unauthorized"⟩, db) ∧
    delete_user db adm adm.userid oc = .ok (⟨401, "Unauthorized"⟩, db) := by
  refine ⟨?_, ?_, ?_, ?_, ?_⟩
  · unfold update_user
    rw [hc, hds]
    simp
  · unfold replace_user
    rw [hc]
    simp [dupUsername, hrep]
  · unfold set_password
    rw [hc]
    simp
  · unfold update_user
    rw [ht, hdo]
    have hb : (current.userid != target.userid) = true := by
      simp [bne_iff_ne]
      exact fun h => hne h.symm
    simp [hb, hna]
  · unfold delete_user
    rw [ha, hadm]
    simp

/-- Witness for C7: Alice (non-admin, id 1) succeeds on her own PATCH,
PUT and set-password; fails 401 on Bob's record (id 2); Carol (admin,
id 3) fails 401 deleting herself. -/
theorem self_or_admin_rule_witness :
    (update_user wDb wAlice wAlice.userid wDataSelf).1 = ⟨200, "OK"⟩ ∧
    (replace_user wDb wAlice wAlice.userid wRep).1 = ⟨200, "OK"⟩ ∧
    (set_password wDb wAlice wAlice.userid "npw").1 = ⟨200, "OK"⟩ ∧
    update_user wDb wAlice wBob.userid wDataOther
      = (⟨401, "Unauthorized"⟩, wDb) ∧
    delete_user wDb wCarol wCarol.userid .ok
      = .ok (⟨401, "Unauthorized"⟩, wDb) :=
  self_or_admin_rule wDb wAlice wBob wCarol wDataSelf wDataOther wRep "npw"
    .ok (by decide) (by decide) rfl (by decide) (by decide) (by decide) rfl
    (by decide) (by decide)

/-- C8: with an existing group and user and an admin requester, a first
AddMember call reports 2xx (200 when the edge exists, 201 when added), a
second identical call reports 200 ('User already in the Group', not an
error), and after the two calls the membership table holds exactly one
(group, user) edge (given the table's primary-key invariant of at most
one such edge initially). -/
theorem add_member_idempotent
    (st : St) (current : UserRec) (gid uid : Nat) (g : GroupRec) (u : UserRec)
    (hadm : current.admin = true)
    (hg : Group_retrieve st.groups gid = some g)
    (hu : User_retrieve st.users uid = some u)
    (hinv : st.members.count (gid, uid) ≤ 1) :
    ((add_user_to_group st current gid uid).1.status = 200 ∨
      (add_user_to_group st current gid uid).1.status = 201) ∧
    ((gid, uid) ∈ st.members →
      (add_user_to_group st current gid uid)
        = (⟨200, "User already in the Group"⟩, st)) ∧
    (add_user_to_group
        (add_user_to_group st current gid uid).2 current gid uid).1.status = 200 ∧
    ((add_user_to_group
        (add_user_to_group st current gid uid).2 current gid uid).2.members.count
      (gid, uid)) = 1 := by
  by_cases hmem : (gid, uid) ∈ st.members
  · have h1 : add_user_to_group st current gid uid
        = (⟨200, "User already in the Group"⟩, st) := by
      unfold add_user_to_group
      rw [hadm, hg, hu]
      simp [hmem]
    have hcount : st.members.count (gid, uid) = 1 := by
      have := List.count_pos_iff.2 hmem
      omega
    refine ⟨Or.inl ?_, fun _ => h1, ?_, ?_⟩ <;> rw [h1] <;> simp [h1, hcount]
  · have h1 : add_user_to_group st current gid uid
        = (⟨201, "User added to the Group"⟩,
           { st with members := st.members ++ [(gid, uid)] }) := by
      unfold add_user_to_group
      rw [hadm, hg, hu]
      simp [hmem]
    have hmem2 : (gid, uid) ∈ st.members ++ [(gid, uid)] := by simp
    have h2 : add_user_to_group { st with members := st.members ++ [(gid, uid)] }
        current gid uid = (⟨200, "User already in the Group"⟩,
          { st with members := st.members ++ [(gid, uid)] }) := by
      unfold add_user_to_group
      rw [hadm]
      rw [hg, hu]
      simp [hmem2]
    have hcount : (st.members ++ [(gid, uid)]).count (gid, uid) = 1 := by
      rw [List.count_append]
      have h0 : st.members.count (gid, uid) = 0 := by
        rw [List.count_eq_zero]
        exact hmem
      simp [h0]
    refine ⟨Or.inr ?_, fun hc => absurd hc hmem, ?_, ?_⟩
    · rw [h1]
    · rw [h1, h2]
    · rw [h1, h2]
      exact hcount

/-- Witness for C8 on `stSample`, where user 2 is already a member of
group 1: both calls report success and one edge remains. -/
theorem add_member_idempotent_witness :
    ((add_user_to_group stSample uAdmin 1 2).1.status = 200 ∨
      (add_user_to_group stSample uAdmin 1 2).1.status = 201) ∧
    (add_user_to_group
        (add_user_to_group stSample uAdmin 1 2).2 uAdmin 1 2).1.status = 200 ∧
    ((add_user_to_group
        (add_user_to_group stSample uAdmin 1 2).2 uAdmin 1 2).2.members.count
      (1, 2)) = 1 := by
  have h := add_member_idempotent stSample uAdmin 1 2
    ⟨1, "staff", "Staff group"⟩ uTarget (by decide) (by decide) (by decide)
    (by decide)
  exact ⟨h.1, h.2.2.1, h.2.2.2⟩

/-- C10: a PUT replace of an existing user whose body keeps the user's
own current username is rejected 400 as a duplicate with the store
unchanged, because the pre-check `User.get_list({'username': ...})`
matches the record being replaced; likewise for a PUT on a group keeping
its current groupname. -/
theorem put_own_name_rejected
    (db : List UserRec) (st : St) (cu cg : UserRec) (uid gid : Nat)
    (u : UserRec) (g : GroupRec) (d : ReplaceData) (gd : GroupData)
    (hu : User_retrieve db uid = some u)
    (hname : d.username = u.username)
    (husplit : splitComma u.username = [u.username])
    (hadm : cg.admin = true)
    (hg : Group_retrieve st.groups gid = some g)
    (hgname : gd.groupname = g.groupname)
    (hgsplit : splitComma g.groupname = [g.groupname]) :
    replace_user db cu uid d = (⟨400, "Bad request"⟩, db) ∧
    replace_group st cg gid gd = (⟨400, "Bad request"⟩, st) := by
  constructor
  · have humem : u ∈ db := List.mem_of_find?_eq_some hu
    have hdup := dupUsername_self db u humem husplit
    unfold replace_user
    rw [hu, hname]
    simp [hdup]
  · have hgmem : g ∈ st.groups := List.mem_of_find?_eq_some hg
    have hpred : ((splitComma g.groupname).contains g.groupname) = true := by
      rw [hgsplit]; simp
    have hm : g ∈ st.groups.filter
        (fun x => (splitComma g.groupname).contains x.groupname) :=
      List.mem_filter.2 ⟨hgmem, hpred⟩
    have hne : st.groups.filter
        (fun x => (splitComma g.groupname).contains x.groupname) ≠ [] :=
      List.ne_nil_of_mem hm
    unfold replace_group
    rw [hadm, hg, hgname]
    simp only [Group_get_list_groupname]
    rw [if_pos hne]
    simp

/-- Witness for C10: admin PUTs their own record keeping username
'admin' (400), and PUTs group 'staff' keeping its groupname (400). -/
theorem put_own_name_rejected_witness :
    replace_user [uAdmin] uAdmin 1
      ⟨"admin", "Admin", "User", "admin@example.com", "123-444-5555"⟩
      = (⟨400, "Bad request"⟩, [uAdmin]) ∧
    replace_group stSample uAdmin 1 ⟨"staff", "Staff group"⟩
      = (⟨400, "Bad request"⟩, stSample) :=
  put_own_name_rejected [uAdmin] stSample uAdmin uAdmin 1 1 uAdmin
    ⟨1, "staff", "Staff group"⟩
    ⟨"admin", "Admin", "User", "admin@example.com", "123-444-5555"⟩
    ⟨"staff", "Staff group"⟩
    (by decide) rfl (by decide) (by decide) (by decide) rfl (by decide)

end Appusers
